import Mathlib

set_option linter.unusedVariables false

/-!
Verification of `scripts/setup-env.py`.

The script is embedded shallowly. An `Env` records the observable facts the
script consults: which executable names resolve on the path (the result of
`shutil.which`) and whether a given shell command exits with status zero
(the result of `subprocess.run(..., shell=True)`). Every install routine is
translated to a pure function returning its boolean outcome together with
the list of shell commands it dispatched, in order; the list instruments the
calls to `subprocess.run`, which are the only side effects of the script
beyond printing. The embedding assumes `subprocess.run` itself does not
raise (the script never passes an unknown executable to it directly since
every command goes through the shell), so the outcome of a command is just
its exit status, modelled as a `Bool`.
-/

/-- The observable environment of the script: the set of executables
resolvable on the path, and the exit outcome (`true` = status zero) of each
shell command. -/
structure Env where
  path : List String
  run : String → Bool

/-- `shutil.which`: is the executable resolvable on the path? -/
def which (env : Env) (name : String) : Bool :=
  env.path.contains name

/-- Python `str.lower`: lower-case a string character by character. Defined
over the character list so that it reduces structurally (the core
`String.toLower` recurses on byte positions and does not evaluate in the
kernel). -/
def lowerString (s : String) : String :=
  ⟨s.data.map Char.toLower⟩

/-- `SystemDetector.__init__`: the lower-cased system identification string,
the lower-cased machine string, and the three derived family flags. -/
structure SystemDetector where
  system : String
  machine : String
  is_windows : Bool
  is_linux : Bool
  is_macos : Bool

/-- Construction of a `SystemDetector` from `platform.system()` and
`platform.machine()` as in `SystemDetector.__init__`. -/
def SystemDetector.init (sysStr machineStr : String) : SystemDetector :=
  { system := lowerString sysStr
    machine := lowerString machineStr
    is_windows := lowerString sysStr == "windows"
    is_linux := lowerString sysStr == "linux"
    is_macos := lowerString sysStr == "darwin" }

/-- `SystemDetector.get_package_manager`: scan the family-specific ordered
candidate list and return the first executable candidate, else `none`. -/
def SystemDetector.get_package_manager (d : SystemDetector) (env : Env) :
    Option String :=
  if d.is_windows then
    if which env "winget" then some "winget"
    else if which env "choco" then some "choco"
    else if which env "scoop" then some "scoop"
    else none
  else if d.is_linux then
    if which env "apt" then some "apt"
    else if which env "dnf" then some "dnf"
    else if which env "yum" then some "yum"
    else if which env "pacman" then some "pacman"
    else none
  else if d.is_macos then
    if which env "brew" then some "brew"
    else none
  else none

/-- Python truthiness of an optional string argument (`None` and the empty
string are falsy). -/
def truthyStr : Option String → Bool
  | none => false
  | some s => !(s == "")

/-- `ToolInstaller.check_tool`: result is `(installed, status_message)`,
paired with the list of shell commands dispatched. The version command is
run only when BOTH `version_cmd` and `min_version` are truthy; when it runs,
`subprocess.run` is called without `check=True`, its result is discarded and
the tool is reported installed regardless of the exit status. -/
def check_tool (env : Env) (tool_name : String) (version_cmd : Option String)
    (min_version : Option String) : (Bool × String) × List String :=
  if !(which env tool_name) then ((false, "Not installed"), [])
  else if truthyStr version_cmd && truthyStr min_version then
    ((true, "Installed"), [version_cmd.getD ""])
  else ((true, "Installed"), [])

/-- `ToolInstaller.run_command`: dispatch one shell command; `true` on exit
status zero, `false` on `CalledProcessError`. The description is only
printed. -/
def run_command (env : Env) (cmd description : String) : Bool × List String :=
  (env.run cmd, [cmd])

/-- `ToolInstaller.install_cmake`. -/
def install_cmake (env : Env) (pkg_mgr : Option String) : Bool × List String :=
  let chk := check_tool env "cmake" (some "cmake --version") none
  let rest : Bool × List String :=
    if chk.1.1 then (true, [])
    else if pkg_mgr = some "winget" then
      run_command env "winget install Kitware.CMake" "Installing CMake via winget"
    else if pkg_mgr = some "choco" then
      run_command env "choco install cmake" "Installing CMake via chocolatey"
    else if pkg_mgr = some "apt" then
      run_command env "sudo apt update && sudo apt install -y cmake" "Installing CMake via apt"
    else if pkg_mgr = some "dnf" then
      run_command env "sudo dnf install -y cmake" "Installing CMake via dnf"
    else if pkg_mgr = some "yum" then
      run_command env "sudo yum install -y cmake" "Installing CMake via yum"
    else if pkg_mgr = some "pacman" then
      run_command env "sudo pacman -S --noconfirm cmake" "Installing CMake via pacman"
    else if pkg_mgr = some "brew" then
      run_command env "brew install cmake" "Installing CMake via homebrew"
    else (false, [])
  (rest.1, chk.2 ++ rest.2)

/-- The compiler candidate list of `ToolInstaller.install_compiler`:
`cl` is considered only on Windows. -/
def compiler_candidates (d : SystemDetector) : List String :=
  if d.is_windows then ["g++", "clang++", "cl"] else ["g++", "clang++"]

/-- `ToolInstaller.install_compiler`: success if any candidate compiler is
on the path; on Windows absence yields an informational message and success;
otherwise an install command keyed by the package manager, or failure when
none applies. -/
def install_compiler (env : Env) (d : SystemDetector) (pkg_mgr : Option String) :
    Bool × List String :=
  if (compiler_candidates d).any (fun c => which env c) then (true, [])
  else if d.is_windows then (true, [])
  else if pkg_mgr = some "apt" then
    run_command env "sudo apt install -y build-essential" "Installing GCC via apt"
  else if pkg_mgr = some "dnf" then
    run_command env "sudo dnf groupinstall -y \x27Development Tools\x27" "Installing GCC via dnf"
  else if pkg_mgr = some "yum" then
    run_command env "sudo yum groupinstall -y \x27Development Tools\x27" "Installing GCC via yum"
  else if pkg_mgr = some "pacman" then
    run_command env "sudo pacman -S --noconfirm base-devel" "Installing GCC via pacman"
  else if pkg_mgr = some "brew" then
    run_command env "xcode-select --install" "Installing Xcode Command Line Tools"
  else (false, [])

/-- `ToolInstaller.install_git`. -/
def install_git (env : Env) (pkg_mgr : Option String) : Bool × List String :=
  let chk := check_tool env "git" (some "git --version") none
  let rest : Bool × List String :=
    if chk.1.1 then (true, [])
    else if pkg_mgr = some "winget" then
      run_command env "winget install Git.Git" "Installing Git via winget"
    else if pkg_mgr = some "choco" then
      run_command env "choco install git" "Installing Git via chocolatey"
    else if pkg_mgr = some "apt" then
      run_command env "sudo apt install -y git" "Installing Git via apt"
    else if pkg_mgr = some "dnf" then
      run_command env "sudo dnf install -y git" "Installing Git via dnf"
    else if pkg_mgr = some "yum" then
      run_command env "sudo yum install -y git" "Installing Git via yum"
    else if pkg_mgr = some "pacman" then
      run_command env "sudo pacman -S --noconfirm git" "Installing Git via pacman"
    else if pkg_mgr = some "brew" then
      run_command env "brew install git" "Installing Git via homebrew"
    else (false, [])
  (rest.1, chk.2 ++ rest.2)

/-- `ToolInstaller.install_coverage_tools`: on Windows a single tool
(OpenCppCoverage, installable only via choco); otherwise gcovr and lcov are
checked and installed independently, combining outcomes with a
non-short-circuiting boolean conjunction (`success &= ...`). -/
def install_coverage_tools (env : Env) (d : SystemDetector)
    (pkg_mgr : Option String) : Bool × List String :=
  if d.is_windows then
    if which env "OpenCppCoverage" then (true, [])
    else if pkg_mgr = some "choco" then
      run_command env "choco install opencppcoverage" "Installing OpenCppCoverage via chocolatey"
    else (false, [])
  else
    let gcovr_installed := which env "gcovr"
    let lcov_installed := which env "lcov"
    if gcovr_installed && lcov_installed then (true, [])
    else
      let step1 : Bool × List String :=
        if !gcovr_installed then
          if pkg_mgr = some "apt" then
            run_command env "sudo apt install -y gcovr" "Installing gcovr via apt"
          else if pkg_mgr = some "dnf" then
            run_command env "sudo dnf install -y gcovr" "Installing gcovr via dnf"
          else if pkg_mgr = some "yum" then
            run_command env "sudo yum install -y gcovr" "Installing gcovr via yum"
          else if pkg_mgr = some "pacman" then
            run_command env "sudo pacman -S --noconfirm gcovr" "Installing gcovr via pacman"
          else if pkg_mgr = some "brew" then
            run_command env "brew install gcovr" "Installing gcovr via homebrew"
          else (false, [])
        else (true, [])
      let step2 : Bool × List String :=
        if !lcov_installed then
          if pkg_mgr = some "apt" then
            run_command env "sudo apt install -y lcov" "Installing lcov via apt"
          else if pkg_mgr = some "dnf" then
            run_command env "sudo dnf install -y lcov" "Installing lcov via dnf"
          else if pkg_mgr = some "yum" then
            run_command env "sudo yum install -y lcov" "Installing lcov via yum"
          else if pkg_mgr = some "pacman" then
            run_command env "sudo pacman -S --noconfirm lcov" "Installing lcov via pacman"
          else if pkg_mgr = some "brew" then
            run_command env "brew install lcov" "Installing lcov via homebrew"
          else (false, [])
        else (true, [])
      (step1.1 && step2.1, step1.2 ++ step2.2)

/-- `ToolInstaller.install_doxygen`. -/
def install_doxygen (env : Env) (pkg_mgr : Option String) : Bool × List String :=
  let chk := check_tool env "doxygen" (some "doxygen --version") none
  let rest : Bool × List String :=
    if chk.1.1 then (true, [])
    else if pkg_mgr = some "winget" then
      run_command env "winget install DimitriVanHeesch.Doxygen" "Installing Doxygen via winget"
    else if pkg_mgr = some "choco" then
      run_command env "choco install doxygen.install" "Installing Doxygen via chocolatey"
    else if pkg_mgr = some "apt" then
      run_command env "sudo apt install -y doxygen graphviz" "Installing Doxygen via apt"
    else if pkg_mgr = some "dnf" then
      run_command env "sudo dnf install -y doxygen graphviz" "Installing Doxygen via dnf"
    else if pkg_mgr = some "yum" then
      run_command env "sudo yum install -y doxygen graphviz" "Installing Doxygen via yum"
    else if pkg_mgr = some "pacman" then
      run_command env "sudo pacman -S --noconfirm doxygen graphviz" "Installing Doxygen via pacman"
    else if pkg_mgr = some "brew" then
      run_command env "brew install doxygen graphviz" "Installing Doxygen via homebrew"
    else (false, [])
  (rest.1, chk.2 ++ rest.2)

/-- The observable result of one run of `main`: the success count and tool
total of the final summary, the outcome of each tool evaluated in order
(instrumenting the per-tool status lines), the shell commands dispatched in
order, and the process exit status (`sys.exit(1)` on partial failure,
falling off the end, hence 0, otherwise). -/
structure MainResult where
  success_count : Nat
  total_tools : Nat
  outcomes : List (String × Bool)
  cmds : List String
  exit_code : Nat

/-- The function `main` of the script, renamed since `main` is reserved in
Lean: detect the system, derive the package manager, ensure the four core
tools in order, then the optional doxygen when `--install-optional` is
given, and exit 1 unless every attempted tool succeeded. -/
def setup_main (env : Env) (sysStr machineStr : String) (install_optional : Bool) :
    MainResult :=
  let detector := SystemDetector.init sysStr machineStr
  let pkg_mgr := detector.get_package_manager env
  let t1 := install_cmake env pkg_mgr
  let t2 := install_compiler env detector pkg_mgr
  let t3 := install_git env pkg_mgr
  let t4 := install_coverage_tools env detector pkg_mgr
  let base := (if t1.1 then 1 else 0) + (if t2.1 then 1 else 0) +
      (if t3.1 then 1 else 0) + (if t4.1 then 1 else 0)
  if install_optional then
    let t5 := install_doxygen env pkg_mgr
    let sc := base + (if t5.1 then 1 else 0)
    { success_count := sc
      total_tools := 5
      outcomes := [("cmake", t1.1), ("compiler", t2.1), ("git", t3.1),
        ("coverage", t4.1), ("doxygen", t5.1)]
      cmds := t1.2 ++ t2.2 ++ t3.2 ++ t4.2 ++ t5.2
      exit_code := if sc = 5 then 0 else 1 }
  else
    { success_count := base
      total_tools := 4
      outcomes := [("cmake", t1.1), ("compiler", t2.1), ("git", t3.1),
        ("coverage", t4.1)]
      cmds := t1.2 ++ t2.2 ++ t3.2 ++ t4.2
      exit_code := if base = 4 then 0 else 1 }

/-! ## Helper lemmas -/

/-- When the executable is on the path and no minimum version is supplied
(`min_version=None`, as at every call site), `check_tool` reports the tool
installed and dispatches no command. -/
theorem check_tool_present (env : Env) (t vc : String) (h : which env t = true) :
    check_tool env t (some vc) none = ((true, "Installed"), []) := by
  simp [check_tool, h, truthyStr]

/-- When the executable is not on the path, `check_tool` reports it missing
and dispatches no command. -/
theorem check_tool_absent (env : Env) (t vc : String) (h : which env t = false) :
    check_tool env t (some vc) none = ((false, "Not installed"), []) := by
  simp [check_tool, h]

theorem install_cmake_present (env : Env) (pm : Option String)
    (h : which env "cmake" = true) : install_cmake env pm = (true, []) := by
  simp [install_cmake, check_tool_present env _ _ h]

theorem install_git_present (env : Env) (pm : Option String)
    (h : which env "git" = true) : install_git env pm = (true, []) := by
  simp [install_git, check_tool_present env _ _ h]

theorem install_doxygen_present (env : Env) (pm : Option String)
    (h : which env "doxygen" = true) : install_doxygen env pm = (true, []) := by
  simp [install_doxygen, check_tool_present env _ _ h]

theorem install_compiler_present (env : Env) (d : SystemDetector)
    (pm : Option String)
    (h : (compiler_candidates d).any (fun c => which env c) = true) :
    install_compiler env d pm = (true, []) := by
  simp [install_compiler, h]

theorem install_coverage_tools_present_windows (env : Env) (d : SystemDetector)
    (pm : Option String) (hw : d.is_windows = true)
    (h : which env "OpenCppCoverage" = true) :
    install_coverage_tools env d pm = (true, []) := by
  simp [install_coverage_tools, hw, h]

theorem install_coverage_tools_present_nonwindows (env : Env)
    (d : SystemDetector) (pm : Option String) (hw : d.is_windows = false)
    (hg : which env "gcovr" = true) (hl : which env "lcov" = true) :
    install_coverage_tools env d pm = (true, []) := by
  simp [install_coverage_tools, hw, hg, hl]

/-- `List.find?` on a cons cell, phrased with `if`. -/
theorem find?_cons_ite (p : String → Bool) (a : String) (l : List String) :
    List.find? p (a :: l) = if p a then some a else List.find? p l := by
  cases h : p a <;> simp [List.find?, h]

/-- `get_package_manager` equals a first-match scan (`List.find?`) of the
ordered candidate list of the detected family. -/
theorem get_package_manager_eq_find (env : Env) (d : SystemDetector) :
    d.get_package_manager env =
      (if d.is_windows then ["winget", "choco", "scoop"]
       else if d.is_linux then ["apt", "dnf", "yum", "pacman"]
       else if d.is_macos then ["brew"]
       else []).find? (fun c => which env c) := by
  rcases d with ⟨s, mach, w, l, mac⟩
  cases w <;> cases l <;> cases mac <;>
    simp [SystemDetector.get_package_manager, find?_cons_ite]

/-! ## Claims -/

/-- C1: counterexample. With `cmake` on the path and a version-check command
configured at the call site (`check_tool("cmake", "cmake --version")`), the
version-check command is NOT invoked: because no minimum version is
supplied, `check_tool` skips the `subprocess.run` call, and `install_cmake`
dispatches no command at all. This refutes the claim that the configured
version-check command is invoked whenever the executable is found. -/
theorem claim_C1_counterexample :
    which ⟨["cmake"], fun _ => false⟩ "cmake" = true ∧
    "cmake --version" ∉ (install_cmake ⟨["cmake"], fun _ => false⟩ (some "apt")).2 := by
  decide

/-- C1 (amended): for every tool whose primary executable is found on the
path and whose version-check command is configured (cmake, git, doxygen),
the version-check command is NOT invoked, because every call site leaves the
minimum version unset; the check nevertheless reports the tool as installed,
so the result is presence-confirmed independently of any command outcome,
and the install routine dispatches no command. -/
theorem claim_C1_thm (env : Env) (pm : Option String) (t vc : String)
    (h : which env t = true) :
    check_tool env t (some vc) none = ((true, "Installed"), []) ∧
    (which env "cmake" = true → install_cmake env pm = (true, [])) ∧
    (which env "git" = true → install_git env pm = (true, [])) ∧
    (which env "doxygen" = true → install_doxygen env pm = (true, [])) :=
  ⟨check_tool_present env t vc h,
   fun hc => install_cmake_present env pm hc,
   fun hg => install_git_present env pm hg,
   fun hd => install_doxygen_present env pm hd⟩

/-- C1: witness for the amended theorem at a concrete environment holding
cmake, git and doxygen. -/
theorem claim_C1_witness :
    check_tool ⟨["cmake", "git", "doxygen"], fun _ => false⟩ "git" (some "git --version") none
      = ((true, "Installed"), []) ∧
    install_cmake ⟨["cmake", "git", "doxygen"], fun _ => false⟩ none = (true, []) ∧
    install_git ⟨["cmake", "git", "doxygen"], fun _ => false⟩ none = (true, []) ∧
    install_doxygen ⟨["cmake", "git", "doxygen"], fun _ => false⟩ none = (true, []) := by
  have h := claim_C1_thm ⟨["cmake", "git", "doxygen"], fun _ => false⟩ none
    "git" "git --version" (by decide)
  exact ⟨h.1, h.2.1 (by decide), h.2.2.1 (by decide), h.2.2.2 (by decide)⟩

/-- C3: the package manager returned for any detector state is the first
executable candidate of the fixed priority list of the detected family
(windows: winget, choco, scoop; linux: apt, dnf, yum, pacman; macos: brew);
the result is an `Option`, so at most one manager is ever selected. In
particular, on linux with both apt and dnf on the path, apt is chosen. -/
theorem claim_C3_thm (env : Env) (d : SystemDetector) :
    d.get_package_manager env =
      (if d.is_windows then ["winget", "choco", "scoop"]
       else if d.is_linux then ["apt", "dnf", "yum", "pacman"]
       else if d.is_macos then ["brew"]
       else []).find? (fun c => which env c) ∧
    (SystemDetector.init "linux" "x86_64").get_package_manager
      ⟨["dnf", "apt"], fun _ => false⟩ = some "apt" :=
  ⟨get_package_manager_eq_find env d, by decide⟩

/-- C6: for every tool, when the presence check finds the tool on the path,
the install routine returns success and dispatches no shell command: cmake,
git and doxygen by executable name; the compiler when any platform
candidate is found; coverage on Windows when OpenCppCoverage is found, and
on non-Windows when both gcovr and lcov are found. -/
theorem claim_C6_thm (env : Env) (d : SystemDetector) (pm : Option String) :
    (which env "cmake" = true → install_cmake env pm = (true, [])) ∧
    (which env "git" = true → install_git env pm = (true, [])) ∧
    (which env "doxygen" = true → install_doxygen env pm = (true, [])) ∧
    ((compiler_candidates d).any (fun c => which env c) = true →
      install_compiler env d pm = (true, [])) ∧
    (d.is_windows = true → which env "OpenCppCoverage" = true →
      install_coverage_tools env d pm = (true, [])) ∧
    (d.is_windows = false → which env "gcovr" = true → which env "lcov" = true →
      install_coverage_tools env d pm = (true, [])) :=
  ⟨fun h => install_cmake_present env pm h,
   fun h => install_git_present env pm h,
   fun h => install_doxygen_present env pm h,
   fun h => install_compiler_present env d pm h,
   fun hw h => install_coverage_tools_present_windows env d pm hw h,
   fun hw hg hl => install_coverage_tools_present_nonwindows env d pm hw hg hl⟩

/-- C6: witness on a linux environment with every tool present and on a
windows environment with OpenCppCoverage present. -/
theorem claim_C6_witness :
    install_cmake ⟨["cmake", "git", "doxygen", "g++", "gcovr", "lcov"], fun _ => false⟩ (some "apt") = (true, []) ∧
    install_git ⟨["cmake", "git", "doxygen", "g++", "gcovr", "lcov"], fun _ => false⟩ (some "apt") = (true, []) ∧
    install_doxygen ⟨["cmake", "git", "doxygen", "g++", "gcovr", "lcov"], fun _ => false⟩ (some "apt") = (true, []) ∧
    install_compiler ⟨["cmake", "git", "doxygen", "g++", "gcovr", "lcov"], fun _ => false⟩
      (SystemDetector.init "linux" "x86_64") (some "apt") = (true, []) ∧
    install_coverage_tools ⟨["cmake", "git", "doxygen", "g++", "gcovr", "lcov"], fun _ => false⟩
      (SystemDetector.init "linux" "x86_64") (some "apt") = (true, []) ∧
    install_coverage_tools ⟨["OpenCppCoverage"], fun _ => false⟩
      (SystemDetector.init "windows" "amd64") none = (true, []) := by
  have h1 := claim_C6_thm ⟨["cmake", "git", "doxygen", "g++", "gcovr", "lcov"], fun _ => false⟩
    (SystemDetector.init "linux" "x86_64") (some "apt")
  have h2 := claim_C6_thm ⟨["OpenCppCoverage"], fun _ => false⟩
    (SystemDetector.init "windows" "amd64") none
  exact ⟨h1.1 (by decide), h1.2.1 (by decide), h1.2.2.1 (by decide),
    h1.2.2.2.1 (by decide), h1.2.2.2.2.2 (by decide) (by decide) (by decide),
    h2.2.2.2.2.1 (by decide) (by decide)⟩

/-- C4: on non-Windows with both coverage sub-tools missing and a package
manager with coverage mappings, exactly two install commands are dispatched
(the gcovr one and then the lcov one), unconditionally on each outcome (the
accumulator is `success &= ...`, not a short-circuiting conditional), and
the overall outcome is the conjunction of the two command outcomes. -/
theorem claim_C4_thm (env : Env) (d : SystemDetector) (p : String)
    (hw : d.is_windows = false) (hg : which env "gcovr" = false)
    (hl : which env "lcov" = false)
    (hp : p ∈ ["apt", "dnf", "yum", "pacman", "brew"]) :
    ∃ cg cl,
      (install_coverage_tools env d (some p)).2 = [cg, cl] ∧
      (install_coverage_tools env d (some p)).1 = (env.run cg && env.run cl) := by
  simp only [List.mem_cons, List.not_mem_nil, or_false] at hp
  rcases hp with rfl | rfl | rfl | rfl | rfl
  · exact ⟨"sudo apt install -y gcovr", "sudo apt install -y lcov",
      by simp [install_coverage_tools, run_command, hw, hg, hl],
      by simp [install_coverage_tools, run_command, hw, hg, hl]⟩
  · exact ⟨"sudo dnf install -y gcovr", "sudo dnf install -y lcov",
      by simp [install_coverage_tools, run_command, hw, hg, hl],
      by simp [install_coverage_tools, run_command, hw, hg, hl]⟩
  · exact ⟨"sudo yum install -y gcovr", "sudo yum install -y lcov",
      by simp [install_coverage_tools, run_command, hw, hg, hl],
      by simp [install_coverage_tools, run_command, hw, hg, hl]⟩
  · exact ⟨"sudo pacman -S --noconfirm gcovr", "sudo pacman -S --noconfirm lcov",
      by simp [install_coverage_tools, run_command, hw, hg, hl],
      by simp [install_coverage_tools, run_command, hw, hg, hl]⟩
  · exact ⟨"brew install gcovr", "brew install lcov",
      by simp [install_coverage_tools, run_command, hw, hg, hl],
      by simp [install_coverage_tools, run_command, hw, hg, hl]⟩

/-- C4: witness on a linux environment where the first (gcovr) command fails
and the second (lcov) command succeeds: both commands are dispatched and the
overall outcome is failure. -/
theorem claim_C4_witness :
    ∃ cg cl,
      (install_coverage_tools ⟨[], fun c => c == "sudo apt install -y lcov"⟩
        (SystemDetector.init "linux" "x86_64") (some "apt")).2 = [cg, cl] ∧
      (install_coverage_tools ⟨[], fun c => c == "sudo apt install -y lcov"⟩
        (SystemDetector.init "linux" "x86_64") (some "apt")).1 =
        ((fun c => c == "sudo apt install -y lcov") cg &&
         (fun c => c == "sudo apt install -y lcov") cl) :=
  claim_C4_thm ⟨[], fun c => c == "sudo apt install -y lcov"⟩
    (SystemDetector.init "linux" "x86_64") "apt"
    (by decide) (by decide) (by decide) (by decide)

/-- C5: counterexample. On linux with no compiler candidate on the path and
no detected package manager, `install_compiler` dispatches NO install
command and fails, refuting the unconditional claim that on non-Windows an
install command is dispatched whose result determines the outcome. -/
theorem claim_C5_counterexample :
    (SystemDetector.init "linux" "x86_64").is_windows = false ∧
    (compiler_candidates (SystemDetector.init "linux" "x86_64")).any
      (fun c => which ⟨[], fun _ => false⟩ c) = false ∧
    install_compiler ⟨[], fun _ => false⟩ (SystemDetector.init "linux" "x86_64")
      none = (false, []) := by
  decide

/-- C5 (amended): presence is true (and the outcome success with no command)
when any candidate compiler executable is found — g++, clang++, plus cl on
Windows; when all are absent, on Windows the outcome is always success with
no command dispatched (informational message only), and on non-Windows: if
the detected package manager has a compiler mapping (apt, dnf, yum, pacman,
brew) a single install command is dispatched whose result is the outcome,
and otherwise no command is dispatched and the outcome is failure. -/
theorem claim_C5_thm (env : Env) (d : SystemDetector) (pm : Option String) :
    ((compiler_candidates d).any (fun c => which env c) = true →
      install_compiler env d pm = (true, [])) ∧
    ((compiler_candidates d).any (fun c => which env c) = false →
      d.is_windows = true → install_compiler env d pm = (true, [])) ∧
    ((compiler_candidates d).any (fun c => which env c) = false →
      d.is_windows = false →
      ∀ q ∈ ["apt", "dnf", "yum", "pacman", "brew"],
        ∃ c, install_compiler env d (some q) = (env.run c, [c])) ∧
    ((compiler_candidates d).any (fun c => which env c) = false →
      d.is_windows = false →
      (∀ q ∈ ["apt", "dnf", "yum", "pacman", "brew"], pm ≠ some q) →
      install_compiler env d pm = (false, [])) := by
  refine ⟨fun h => install_compiler_present env d pm h,
    fun h hw => by simp [install_compiler, h, hw], fun h hw q hq => ?_, fun h hw hq => ?_⟩
  · simp only [List.mem_cons, List.not_mem_nil, or_false] at hq
    rcases hq with rfl | rfl | rfl | rfl | rfl
    · exact ⟨"sudo apt install -y build-essential",
        by simp [install_compiler, run_command, h, hw]⟩
    · exact ⟨"sudo dnf groupinstall -y \x27Development Tools\x27",
        by simp [install_compiler, run_command, h, hw]⟩
    · exact ⟨"sudo yum groupinstall -y \x27Development Tools\x27",
        by simp [install_compiler, run_command, h, hw]⟩
    · exact ⟨"sudo pacman -S --noconfirm base-devel",
        by simp [install_compiler, run_command, h, hw]⟩
    · exact ⟨"xcode-select --install",
        by simp [install_compiler, run_command, h, hw]⟩
  · have h1 := hq "apt" (by simp)
    have h2 := hq "dnf" (by simp)
    have h3 := hq "yum" (by simp)
    have h4 := hq "pacman" (by simp)
    have h5 := hq "brew" (by simp)
    simp [install_compiler, h, hw, h1, h2, h3, h4, h5]

/-- C5: witness for the amended theorem: a macos environment with brew,
where the dispatched command fails, and a windows environment with no
compiler, where the outcome is success with no command. -/
theorem claim_C5_witness :
    (∃ c, install_compiler ⟨[], fun _ => false⟩
      (SystemDetector.init "darwin" "arm64") (some "brew") =
        ((⟨[], fun _ => false⟩ : Env).run c, [c])) ∧
    install_compiler ⟨[], fun _ => false⟩ (SystemDetector.init "windows" "amd64")
      none = (true, []) := by
  refine ⟨(claim_C5_thm ⟨[], fun _ => false⟩ (SystemDetector.init "darwin" "arm64")
      (some "brew")).2.2.1 (by decide) (by decide) "brew" (by decide), ?_⟩
  exact (claim_C5_thm ⟨[], fun _ => false⟩ (SystemDetector.init "windows" "amd64")
      none).2.1 (by decide) (by decide)

/-! ## No-mapping behaviour helpers -/

theorem install_cmake_nomap (env : Env) (pm : Option String)
    (h : which env "cmake" = false)
    (hq : ∀ q ∈ ["winget", "choco", "apt", "dnf", "yum", "pacman", "brew"],
      pm ≠ some q) :
    install_cmake env pm = (false, []) := by
  have h1 := hq "winget" (by simp)
  have h2 := hq "choco" (by simp)
  have h3 := hq "apt" (by simp)
  have h4 := hq "dnf" (by simp)
  have h5 := hq "yum" (by simp)
  have h6 := hq "pacman" (by simp)
  have h7 := hq "brew" (by simp)
  simp [install_cmake, check_tool_absent env _ _ h, h1, h2, h3, h4, h5, h6, h7]

theorem install_git_nomap (env : Env) (pm : Option String)
    (h : which env "git" = false)
    (hq : ∀ q ∈ ["winget", "choco", "apt", "dnf", "yum", "pacman", "brew"],
      pm ≠ some q) :
    install_git env pm = (false, []) := by
  have h1 := hq "winget" (by simp)
  have h2 := hq "choco" (by simp)
  have h3 := hq "apt" (by simp)
  have h4 := hq "dnf" (by simp)
  have h5 := hq "yum" (by simp)
  have h6 := hq "pacman" (by simp)
  have h7 := hq "brew" (by simp)
  simp [install_git, check_tool_absent env _ _ h, h1, h2, h3, h4, h5, h6, h7]

theorem install_doxygen_nomap (env : Env) (pm : Option String)
    (h : which env "doxygen" = false)
    (hq : ∀ q ∈ ["winget", "choco", "apt", "dnf", "yum", "pacman", "brew"],
      pm ≠ some q) :
    install_doxygen env pm = (false, []) := by
  have h1 := hq "winget" (by simp)
  have h2 := hq "choco" (by simp)
  have h3 := hq "apt" (by simp)
  have h4 := hq "dnf" (by simp)
  have h5 := hq "yum" (by simp)
  have h6 := hq "pacman" (by simp)
  have h7 := hq "brew" (by simp)
  simp [install_doxygen, check_tool_absent env _ _ h, h1, h2, h3, h4, h5, h6, h7]

theorem install_coverage_tools_nomap_windows (env : Env) (d : SystemDetector)
    (pm : Option String) (hw : d.is_windows = true)
    (h : which env "OpenCppCoverage" = false) (hq : pm ≠ some "choco") :
    install_coverage_tools env d pm = (false, []) := by
  simp [install_coverage_tools, hw, h, hq]

theorem install_coverage_tools_nomap_nonwindows (env : Env) (d : SystemDetector)
    (pm : Option String) (hw : d.is_windows = false)
    (hg : which env "gcovr" = false) (hl : which env "lcov" = false)
    (hq : ∀ q ∈ ["apt", "dnf", "yum", "pacman", "brew"], pm ≠ some q) :
    install_coverage_tools env d pm = (false, []) := by
  have h1 := hq "apt" (by simp)
  have h2 := hq "dnf" (by simp)
  have h3 := hq "yum" (by simp)
  have h4 := hq "pacman" (by simp)
  have h5 := hq "brew" (by simp)
  simp [install_coverage_tools, hw, hg, hl, h1, h2, h3, h4, h5]

theorem install_compiler_nomap (env : Env) (d : SystemDetector)
    (pm : Option String)
    (h : (compiler_candidates d).any (fun c => which env c) = false)
    (hw : d.is_windows = false)
    (hq : ∀ q ∈ ["apt", "dnf", "yum", "pacman", "brew"], pm ≠ some q) :
    install_compiler env d pm = (false, []) := by
  have h1 := hq "apt" (by simp)
  have h2 := hq "dnf" (by simp)
  have h3 := hq "yum" (by simp)
  have h4 := hq "pacman" (by simp)
  have h5 := hq "brew" (by simp)
  simp [install_compiler, h, hw, h1, h2, h3, h4, h5]

/-- C7: counterexample. On Windows with no compiler candidate on the path
and no package manager detected (so no install mapping exists for the
combination), the compiler check returns SUCCESS with an informational
message and no command, not the failure the claim requires of every tool. -/
theorem claim_C7_counterexample :
    (SystemDetector.init "windows" "amd64").is_windows = true ∧
    (compiler_candidates (SystemDetector.init "windows" "amd64")).any
      (fun c => which ⟨[], fun _ => false⟩ c) = false ∧
    install_compiler ⟨[], fun _ => false⟩ (SystemDetector.init "windows" "amd64")
      none = (true, []) := by
  decide

/-- C7 (amended): for every tool, if the tool is absent and no install
mapping exists for the (tool, detected_package_manager) combination —
including an unrecognized OS or no detected manager — the install routine
returns failure with a manual-installation message and dispatches no shell
command; the single exception is the C++ compiler on Windows, which prints
installation guidance and reports SUCCESS with no command. The per-tool
mapping domains are: cmake, git, doxygen on winget, choco, apt, dnf, yum,
pacman, brew; coverage on Windows only on choco; coverage sub-tools and the
compiler on non-Windows on apt, dnf, yum, pacman, brew. -/
theorem claim_C7_thm (env : Env) (d : SystemDetector) (pm : Option String) :
    (which env "cmake" = false →
      (∀ q ∈ ["winget", "choco", "apt", "dnf", "yum", "pacman", "brew"],
        pm ≠ some q) →
      install_cmake env pm = (false, [])) ∧
    (which env "git" = false →
      (∀ q ∈ ["winget", "choco", "apt", "dnf", "yum", "pacman", "brew"],
        pm ≠ some q) →
      install_git env pm = (false, [])) ∧
    (which env "doxygen" = false →
      (∀ q ∈ ["winget", "choco", "apt", "dnf", "yum", "pacman", "brew"],
        pm ≠ some q) →
      install_doxygen env pm = (false, [])) ∧
    (d.is_windows = true → which env "OpenCppCoverage" = false →
      pm ≠ some "choco" → install_coverage_tools env d pm = (false, [])) ∧
    (d.is_windows = false → which env "gcovr" = false →
      which env "lcov" = false →
      (∀ q ∈ ["apt", "dnf", "yum", "pacman", "brew"], pm ≠ some q) →
      install_coverage_tools env d pm = (false, [])) ∧
    ((compiler_candidates d).any (fun c => which env c) = false →
      d.is_windows = false →
      (∀ q ∈ ["apt", "dnf", "yum", "pacman", "brew"], pm ≠ some q) →
      install_compiler env d pm = (false, [])) ∧
    ((compiler_candidates d).any (fun c => which env c) = false →
      d.is_windows = true → install_compiler env d pm = (true, [])) :=
  ⟨fun h hq => install_cmake_nomap env pm h hq,
   fun h hq => install_git_nomap env pm h hq,
   fun h hq => install_doxygen_nomap env pm h hq,
   fun hw h hq => install_coverage_tools_nomap_windows env d pm hw h hq,
   fun hw hg hl hq => install_coverage_tools_nomap_nonwindows env d pm hw hg hl hq,
   fun h hw hq => install_compiler_nomap env d pm h hw hq,
   fun h hw => by simp [install_compiler, h, hw]⟩

/-- C7: witness for the amended theorem on an empty environment: a windows
run with scoop detected (scoop has no mapping for any tool) and a linux run
with no manager. -/
theorem claim_C7_witness :
    install_cmake ⟨["scoop"], fun _ => false⟩ (some "scoop") = (false, []) ∧
    install_git ⟨[], fun _ => false⟩ none = (false, []) ∧
    install_doxygen ⟨[], fun _ => false⟩ none = (false, []) ∧
    install_coverage_tools ⟨["scoop"], fun _ => false⟩
      (SystemDetector.init "windows" "amd64") (some "scoop") = (false, []) ∧
    install_coverage_tools ⟨[], fun _ => false⟩
      (SystemDetector.init "linux" "x86_64") none = (false, []) ∧
    install_compiler ⟨[], fun _ => false⟩
      (SystemDetector.init "linux" "x86_64") none = (false, []) ∧
    install_compiler ⟨[], fun _ => false⟩
      (SystemDetector.init "windows" "amd64") none = (true, []) := by
  have hs := claim_C7_thm ⟨["scoop"], fun _ => false⟩
    (SystemDetector.init "windows" "amd64") (some "scoop")
  have hn := claim_C7_thm ⟨[], fun _ => false⟩
    (SystemDetector.init "linux" "x86_64") none
  have hw := claim_C7_thm ⟨[], fun _ => false⟩
    (SystemDetector.init "windows" "amd64") none
  exact ⟨hs.1 (by decide) (by decide),
    hn.2.1 (by decide) (by decide),
    hn.2.2.1 (by decide) (by decide),
    hs.2.2.2.1 (by decide) (by decide) (by decide),
    hn.2.2.2.2.1 (by decide) (by decide) (by decide) (by decide),
    hn.2.2.2.2.2.1 (by decide) (by decide) (by decide),
    hw.2.2.2.2.2.2 (by decide) (by decide)⟩

/-! ## Aggregation helpers -/

theorem exit_code_iff_aux (n m : Nat) : (if n = m then 0 else 1) = 0 ↔ n = m := by
  split <;> simp_all

theorem tally4_aux (b1 b2 b3 b4 : Bool) :
    ((if b1 then 1 else 0) + (if b2 then 1 else 0) + (if b3 then 1 else 0) +
      (if b4 then 1 else 0) = 4) ↔
      (b1 = true ∧ b2 = true ∧ b3 = true ∧ b4 = true) := by
  cases b1 <;> cases b2 <;> cases b3 <;> cases b4 <;> simp

theorem tally5_aux (b1 b2 b3 b4 b5 : Bool) :
    ((if b1 then 1 else 0) + (if b2 then 1 else 0) + (if b3 then 1 else 0) +
      (if b4 then 1 else 0) + (if b5 then 1 else 0) = 5) ↔
      (b1 = true ∧ b2 = true ∧ b3 = true ∧ b4 = true ∧ b5 = true) := by
  cases b1 <;> cases b2 <;> cases b3 <;> cases b4 <;> cases b5 <;> simp

theorem filter4_aux (b1 b2 b3 b4 : Bool) (n1 n2 n3 n4 : String) :
    (List.filter (fun p => p.2) [(n1, b1), (n2, b2), (n3, b3), (n4, b4)]).length =
      (if b1 then 1 else 0) + (if b2 then 1 else 0) + (if b3 then 1 else 0) +
      (if b4 then 1 else 0) := by
  cases b1 <;> cases b2 <;> cases b3 <;> cases b4 <;> simp [List.filter]

theorem filter5_aux (b1 b2 b3 b4 b5 : Bool) (n1 n2 n3 n4 n5 : String) :
    (List.filter (fun p => p.2)
      [(n1, b1), (n2, b2), (n3, b3), (n4, b4), (n5, b5)]).length =
      (if b1 then 1 else 0) + (if b2 then 1 else 0) + (if b3 then 1 else 0) +
      (if b4 then 1 else 0) + (if b5 then 1 else 0) := by
  cases b1 <;> cases b2 <;> cases b3 <;> cases b4 <;> cases b5 <;> simp [List.filter]

/-- C2: for every run, the exit status is 0 iff the success count equals the
tool total, i.e. iff every attempted tool succeeded; the total is exactly 4
without `--install-optional` and 5 with it, so with the flag a failure of
the optional doxygen alone already forces exit status 1. -/
theorem claim_C2_thm (env : Env) (s m : String) (opt : Bool) :
    ((setup_main env s m opt).exit_code = 0 ↔
      (setup_main env s m opt).success_count = (setup_main env s m opt).total_tools) ∧
    (setup_main env s m opt).total_tools = (if opt then 5 else 4) ∧
    ((setup_main env s m opt).success_count = (setup_main env s m opt).total_tools ↔
      ∀ p ∈ (setup_main env s m opt).outcomes, p.2 = true) := by
  cases opt <;>
    simp [setup_main, exit_code_iff_aux, tally4_aux, tally5_aux, and_assoc]

/-- C8: for every run, all tools are evaluated regardless of individual
failures: the per-tool outcome list is always the full fixed tool sequence
(plus doxygen exactly when requested), the success count is the number of
succeeded outcomes, and the exit status is computed only from the final
aggregate after all checks. -/
theorem claim_C8_thm (env : Env) (s m : String) (opt : Bool) :
    (setup_main env s m opt).outcomes.map Prod.fst =
      (if opt then ["cmake", "compiler", "git", "coverage", "doxygen"]
       else ["cmake", "compiler", "git", "coverage"]) ∧
    (setup_main env s m opt).outcomes.length = (setup_main env s m opt).total_tools ∧
    (setup_main env s m opt).success_count =
      ((setup_main env s m opt).outcomes.filter (fun p => p.2)).length ∧
    (setup_main env s m opt).exit_code =
      (if (setup_main env s m opt).success_count =
          (setup_main env s m opt).total_tools then 0 else 1) := by
  cases opt <;> simp [setup_main, filter4_aux, filter5_aux]

/-- C9: the family flags are exactly the lower-cased system string matched
against windows, linux and darwin; the flags are mutually exclusive (so
exactly one family, or the unrecognized state of all flags false, results);
any selected package manager belongs to the candidate list of the detected
family; an unrecognized family always yields no package manager; the
detection functions are total, so no error is ever raised. -/
theorem claim_C9_thm (env : Env) (s m : String) :
    (SystemDetector.init s m).is_windows = (lowerString s == "windows") ∧
    (SystemDetector.init s m).is_linux = (lowerString s == "linux") ∧
    (SystemDetector.init s m).is_macos = (lowerString s == "darwin") ∧
    ¬((SystemDetector.init s m).is_windows = true ∧
      (SystemDetector.init s m).is_linux = true) ∧
    ¬((SystemDetector.init s m).is_windows = true ∧
      (SystemDetector.init s m).is_macos = true) ∧
    ¬((SystemDetector.init s m).is_linux = true ∧
      (SystemDetector.init s m).is_macos = true) ∧
    (∀ p, (SystemDetector.init s m).get_package_manager env = some p →
      p ∈ (if (SystemDetector.init s m).is_windows then ["winget", "choco", "scoop"]
        else if (SystemDetector.init s m).is_linux then ["apt", "dnf", "yum", "pacman"]
        else if (SystemDetector.init s m).is_macos then ["brew"]
        else [])) ∧
    ((SystemDetector.init s m).is_windows = false →
      (SystemDetector.init s m).is_linux = false →
      (SystemDetector.init s m).is_macos = false →
      (SystemDetector.init s m).get_package_manager env = none) := by
  refine ⟨rfl, rfl, rfl, ?_, ?_, ?_, ?_, ?_⟩
  · rintro ⟨h1, h2⟩
    simp only [SystemDetector.init, beq_iff_eq] at h1 h2
    rw [h1] at h2
    exact absurd h2 (by decide)
  · rintro ⟨h1, h2⟩
    simp only [SystemDetector.init, beq_iff_eq] at h1 h2
    rw [h1] at h2
    exact absurd h2 (by decide)
  · rintro ⟨h1, h2⟩
    simp only [SystemDetector.init, beq_iff_eq] at h1 h2
    rw [h1] at h2
    exact absurd h2 (by decide)
  · intro p hp
    rw [get_package_manager_eq_find] at hp
    exact List.mem_of_find?_eq_some hp
  · intro hw hl hm
    rw [get_package_manager_eq_find]
    simp [hw, hl, hm]

/-- C9: witness: a linux system with only dnf selects dnf, which belongs to
the linux candidate list; an unrecognized system string yields no package
manager even with apt on the path. -/
theorem claim_C9_witness :
    "dnf" ∈ (if (SystemDetector.init "Linux" "x86_64").is_windows then
        ["winget", "choco", "scoop"]
      else if (SystemDetector.init "Linux" "x86_64").is_linux then
        ["apt", "dnf", "yum", "pacman"]
      else if (SystemDetector.init "Linux" "x86_64").is_macos then ["brew"]
      else []) ∧
    (SystemDetector.init "plan9" "mips").get_package_manager
      ⟨["apt"], fun _ => false⟩ = none :=
  ⟨(claim_C9_thm ⟨["dnf"], fun _ => false⟩ "Linux" "x86_64").2.2.2.2.2.2.1
      "dnf" (by decide),
   (claim_C9_thm ⟨["apt"], fun _ => false⟩ "plan9" "mips").2.2.2.2.2.2.2
      (by decide) (by decide) (by decide)⟩

/-- C10: on any non-Windows family, including unrecognized ones, the
compiler candidate list is exactly g++ and clang++ (cl is not considered),
and coverage provisioning follows the two-tool branch: it succeeds without
commands only when both gcovr and lcov are present, and with lcov missing
and no package manager it fails even when the Windows coverage tool
OpenCppCoverage is on the path. -/
theorem claim_C10_thm (env : Env) (d : SystemDetector) (pm : Option String)
    (hw : d.is_windows = false) :
    compiler_candidates d = ["g++", "clang++"] ∧
    (which env "gcovr" = true → which env "lcov" = true →
      install_coverage_tools env d pm = (true, [])) ∧
    (which env "OpenCppCoverage" = true → which env "lcov" = false → pm = none →
      (install_coverage_tools env d pm).1 = false) := by
  refine ⟨by simp [compiler_candidates, hw],
    fun hg hl => install_coverage_tools_present_nonwindows env d pm hw hg hl,
    fun ho hl hpm => ?_⟩
  subst hpm
  simp [install_coverage_tools, hw, hl]

/-- C10: witness on an unrecognized family (candidate list) and on linux
(coverage branches), with OpenCppCoverage present in the failing case. -/
theorem claim_C10_witness :
    compiler_candidates (SystemDetector.init "plan9" "mips") = ["g++", "clang++"] ∧
    install_coverage_tools ⟨["gcovr", "lcov"], fun _ => false⟩
      (SystemDetector.init "linux" "x86_64") none = (true, []) ∧
    (install_coverage_tools ⟨["OpenCppCoverage", "gcovr"], fun _ => false⟩
      (SystemDetector.init "linux" "x86_64") none).1 = false :=
  ⟨(claim_C10_thm ⟨[], fun _ => false⟩ (SystemDetector.init "plan9" "mips")
      none (by decide)).1,
   (claim_C10_thm ⟨["gcovr", "lcov"], fun _ => false⟩
      (SystemDetector.init "linux" "x86_64") none (by decide)).2.1
      (by decide) (by decide),
   (claim_C10_thm ⟨["OpenCppCoverage", "gcovr"], fun _ => false⟩
      (SystemDetector.init "linux" "x86_64") none (by decide)).2.2
      (by decide) (by decide) rfl⟩

/-- C2: witness at a concrete linux environment with all four core tools on
the path and no optional flag: exit status 0, total 4. -/
theorem claim_C2_witness :
    ((setup_main ⟨["cmake", "g++", "git", "gcovr", "lcov", "apt"], fun _ => false⟩
        "Linux" "x86_64" false).exit_code = 0 ↔
      (setup_main ⟨["cmake", "g++", "git", "gcovr", "lcov", "apt"], fun _ => false⟩
        "Linux" "x86_64" false).success_count =
      (setup_main ⟨["cmake", "g++", "git", "gcovr", "lcov", "apt"], fun _ => false⟩
        "Linux" "x86_64" false).total_tools) ∧
    (setup_main ⟨["cmake", "g++", "git", "gcovr", "lcov", "apt"], fun _ => false⟩
      "Linux" "x86_64" false).total_tools = (if false then 5 else 4) ∧
    ((setup_main ⟨["cmake", "g++", "git", "gcovr", "lcov", "apt"], fun _ => false⟩
        "Linux" "x86_64" false).success_count =
      (setup_main ⟨["cmake", "g++", "git", "gcovr", "lcov", "apt"], fun _ => false⟩
        "Linux" "x86_64" false).total_tools ↔
      ∀ p ∈ (setup_main ⟨["cmake", "g++", "git", "gcovr", "lcov", "apt"], fun _ => false⟩
        "Linux" "x86_64" false).outcomes, p.2 = true) :=
  claim_C2_thm ⟨["cmake", "g++", "git", "gcovr", "lcov", "apt"], fun _ => false⟩
    "Linux" "x86_64" false

/-- C3: witness instantiating the first-match characterization on a linux
detector with both apt and dnf on the path. -/
theorem claim_C3_witness :
    ((SystemDetector.init "Linux" "x86_64").get_package_manager
        ⟨["dnf", "apt"], fun _ => false⟩ =
      (if (SystemDetector.init "Linux" "x86_64").is_windows then
          ["winget", "choco", "scoop"]
        else if (SystemDetector.init "Linux" "x86_64").is_linux then
          ["apt", "dnf", "yum", "pacman"]
        else if (SystemDetector.init "Linux" "x86_64").is_macos then ["brew"]
        else []).find? (fun c => which ⟨["dnf", "apt"], fun _ => false⟩ c)) ∧
    (SystemDetector.init "linux" "x86_64").get_package_manager
      ⟨["dnf", "apt"], fun _ => false⟩ = some "apt" :=
  claim_C3_thm ⟨["dnf", "apt"], fun _ => false⟩ (SystemDetector.init "Linux" "x86_64")

/-- C8: witness at a concrete environment where every install command fails
and every tool is absent: all four tools are still evaluated and the exit
status reflects the aggregate only. -/
theorem claim_C8_witness :
    (setup_main ⟨[], fun _ => false⟩ "Linux" "x86_64" true).outcomes.map Prod.fst =
      (if true then ["cmake", "compiler", "git", "coverage", "doxygen"]
       else ["cmake", "compiler", "git", "coverage"]) ∧
    (setup_main ⟨[], fun _ => false⟩ "Linux" "x86_64" true).outcomes.length =
      (setup_main ⟨[], fun _ => false⟩ "Linux" "x86_64" true).total_tools ∧
    (setup_main ⟨[], fun _ => false⟩ "Linux" "x86_64" true).success_count =
      ((setup_main ⟨[], fun _ => false⟩ "Linux" "x86_64" true).outcomes.filter
        (fun p => p.2)).length ∧
    (setup_main ⟨[], fun _ => false⟩ "Linux" "x86_64" true).exit_code =
      (if (setup_main ⟨[], fun _ => false⟩ "Linux" "x86_64" true).success_count =
          (setup_main ⟨[], fun _ => false⟩ "Linux" "x86_64" true).total_tools
       then 0 else 1) :=
  claim_C8_thm ⟨[], fun _ => false⟩ "Linux" "x86_64" true
